import Mathlib

/-!
Verification development for the TradingAgents repository core:
symbol validation and Telegram formatting (server/trading_service.py),
the financial-situation memory store (tradingagents/agents/utils/memory.py),
and the comprehensive decision node
(tradingagents/agents/comprehensive/comprehensive_decision_agent.py).

Texts are embedded as `List Char` (Python strings with code-point
semantics); floating-point distances are embedded as `ℚ`; Python `dict`
key access on the run state is embedded as `Option` access that fails
with a `KeyError` string; the text-generation client and the chroma
collection are external collaborators and appear as function parameters.
-/

/- ===================== Python string primitives ===================== -/

/-- Characters removed by Python `str.strip()` with no argument. -/
def pyIsSpace (c : Char) : Bool :=
  c = ' ' || c = '\t' || c = '\n' || c = '\r' || c = '\x0b' || c = '\x0c'

/-- Python `str.strip()`: drop whitespace from both ends. -/
def pyStrip (s : List Char) : List Char :=
  ((s.dropWhile pyIsSpace).reverse.dropWhile pyIsSpace).reverse

/-- Python `str.find(pat)`: index of the first occurrence of `pat`, embedded
as `Option Nat` (`none` stands for Python's `-1`). -/
def pyFind (pat : List Char) : List Char → Option Nat
  | [] => if pat.isEmpty then some 0 else none
  | c :: rest =>
      if pat.isPrefixOf (c :: rest) then some 0
      else (pyFind pat rest).map (· + 1)

/-- Python slice `s[a:b]` for nonnegative bounds. -/
def pySlice (s : List Char) (a b : Nat) : List Char :=
  (s.drop a).take (b - a)

/-- Python slice `s[:m]` for an arbitrary (possibly negative) integer bound. -/
def pyPrefixSlice (s : List Char) (m : Int) : List Char :=
  if 0 ≤ m then s.take m.toNat else s.take (s.length - m.natAbs)

/-- The pattern `pat` occurs in `s` at index `i`. -/
def occursAt (pat s : List Char) (i : Nat) : Prop :=
  pat.isPrefixOf (s.drop i) = true

/-- `i` is the index of the first occurrence of `pat` in `s`. -/
def firstOccurrenceAt (pat s : List Char) (i : Nat) : Prop :=
  occursAt pat s i ∧ ∀ j < i, ¬ occursAt pat s j

instance (pat s : List Char) (i : Nat) : Decidable (occursAt pat s i) := by
  unfold occursAt
  infer_instance

instance (pat s : List Char) (i : Nat) : Decidable (firstOccurrenceAt pat s i) := by
  unfold firstOccurrenceAt
  infer_instance

/- ===================== server/trading_service.py ===================== -/

/-- Header assembled by `TradingService.format_decision_for_telegram`. -/
def ts_header (symbol trade_date : List Char) : List Char :=
  "📊 *Trading Analysis for ".data ++ symbol ++ "*\n📅 Date: ".data ++ trade_date
    ++ "\n🤖 Analyzed by: All Agents (Market, Social, News, Fundamentals)\n\n".data

/-- Footer assembled by `TradingService.format_decision_for_telegram`. -/
def ts_footer : List Char :=
  "⚠️ *Disclaimer:* This is AI-generated analysis for educational purposes only. Not financial advice.".data

/-- The decision section assembled by `format_decision_for_telegram`. -/
def ts_decision_section (decision : List Char) : List Char :=
  "💡 *Trading Decision:*\n".data ++ decision ++ "\n\n".data

/-- `TradingService.format_decision_for_telegram`: build the message and, if it
exceeds 4000 characters, rebuild it with the decision truncated to
`4000 - len(header) - len(footer) - 50` characters plus an ellipsis. -/
def format_decision_for_telegram (decision symbol trade_date : List Char) : List Char :=
  if (ts_header symbol trade_date ++ ts_decision_section decision ++ ts_footer).length > 4000 then
    ts_header symbol trade_date
      ++ ts_decision_section
          (pyPrefixSlice decision
              ((4000 : Int) - ((ts_header symbol trade_date).length : Int)
                - (ts_footer.length : Int) - 50)
            ++ "...".data)
      ++ ts_footer
  else
    ts_header symbol trade_date ++ ts_decision_section decision ++ ts_footer

/-- `TradingService.validate_symbol`: reject empty input, uppercase and strip,
require length in [1,10] and characters drawn from letters, `.`, `-`. -/
def validate_symbol (symbol : List Char) : Bool :=
  if symbol = [] then false
  else
    if (pyStrip (symbol.map Char.toUpper)).length < 1
        ∨ (pyStrip (symbol.map Char.toUpper)).length > 10 then false
    else
      if ¬ (∀ c ∈ pyStrip (symbol.map Char.toUpper),
              c.isAlpha = true ∨ c = '.' ∨ c = '-') then false
      else true

/- ============== tradingagents/agents/utils/memory.py ============== -/

/-- The two config keys `FinancialSituationMemory.__init__` reads. -/
structure MemoryConfig where
  llm_provider : String
  backend_url : String

/-- One stored collection entry: document, recommendation metadata, and the
embedding stored alongside it in embeddings mode (ids are positional:
`str(offset + i)`). -/
structure MemEntry where
  situation : List Char
  recommendation : List Char
  embedding : Option (List ℚ)

/-- The two shapes of chroma query issued by `get_memories`:
`query_embeddings=[e]` or `query_texts=[t]`. -/
inductive ChromaQuery where
  | byEmbeddings (query_embedding : List ℚ)
  | byTexts (query_text : List Char)

/-- The fields of a chroma query result used by `get_memories`
(`documents[0]`, the `recommendation` metadata of `metadatas[0]`,
and `distances[0]`, parallel lists). -/
structure QueryResults where
  documents : List (List Char)
  recommendations : List (List Char)
  distances : List ℚ

/-- The state of a `FinancialSituationMemory` object: the flags fixed by
`__init__`, the external embeddings endpoint, and the collection contents. -/
structure FinancialSituationMemory where
  name : String
  use_embeddings : Bool
  embedding : Option String
  expected_dimension : Option Nat
  embedFn : List Char → List ℚ
  entries : List MemEntry

/-- One match returned by `get_memories`. -/
structure MemRecord where
  matched_situation : List Char
  recommendation : List Char
  similarity_score : ℚ
deriving DecidableEq

/-- `FinancialSituationMemory.__init__`: `use_embeddings` is exactly
`config["llm_provider"] == "openai"`; in embeddings mode the model and
expected dimension depend on `backend_url`. `entries` stands for the
contents of the persistent collection obtained externally. -/
def FinancialSituationMemory.init (name : String) (config : MemoryConfig)
    (embedFn : List Char → List ℚ) (entries : List MemEntry) :
    FinancialSituationMemory :=
  if config.llm_provider == "openai" then
    if config.backend_url == "http://localhost:11434/v1" then
      { name := name, use_embeddings := true, embedding := some ("nomic-embed-text"),
        expected_dimension := some 384, embedFn := embedFn, entries := entries }
    else
      { name := name, use_embeddings := true, embedding := some ("text-embedding-3-small"),
        expected_dimension := some 1536, embedFn := embedFn, entries := entries }
  else
    { name := name, use_embeddings := false, embedding := none,
      expected_dimension := none, embedFn := embedFn, entries := entries }

/-- `FinancialSituationMemory.get_embedding`: `None` when embeddings are
disabled, otherwise the external embeddings endpoint's vector. -/
def FinancialSituationMemory.get_embedding (self : FinancialSituationMemory)
    (text : List Char) : Option (List ℚ) :=
  if !self.use_embeddings then none else some (self.embedFn text)

/-- The query `get_memories` issues: by embedding vector in embeddings mode,
by query text otherwise (memory.py lines 147-160). -/
def memoryQueryRequest (self : FinancialSituationMemory)
    (current_situation : List Char) : ChromaQuery :=
  if self.use_embeddings then
    ChromaQuery.byEmbeddings ((self.get_embedding current_situation).getD [])
  else
    ChromaQuery.byTexts current_situation

/-- The similarity score computed per match: `1 - distance` in embeddings
mode, `max(0, 1 - distance)` in text-search mode (memory.py lines 164-168). -/
def similarity_score_of (use_embeddings : Bool) (distance : ℚ) : ℚ :=
  if use_embeddings then 1 - distance else max 0 (1 - distance)

/-- `FinancialSituationMemory.get_memories`: issue the query and turn the
parallel result lists into `MemRecord`s. `chroma` is the external chroma
collection's query behaviour as a function of the collection contents. -/
def get_memories (chroma : List MemEntry → ChromaQuery → Nat → QueryResults)
    (self : FinancialSituationMemory) (current_situation : List Char)
    (n_matches : Nat) : List MemRecord :=
  let results := chroma self.entries (memoryQueryRequest self current_situation) n_matches
  (results.documents.zip (results.recommendations.zip results.distances)).map
    (fun p =>
      { matched_situation := p.1,
        recommendation := p.2.1,
        similarity_score := similarity_score_of self.use_embeddings p.2.2 })

/-- `get_memories` with the (unchanged) object state threaded through, making
explicit that the call does not mutate the store. -/
def get_memories_st (chroma : List MemEntry → ChromaQuery → Nat → QueryResults)
    (self : FinancialSituationMemory) (current_situation : List Char)
    (n_matches : Nat) : List MemRecord × FinancialSituationMemory :=
  (get_memories chroma self current_situation n_matches, self)

/-- `FinancialSituationMemory.add_situations`: append the given
(situation, recommendation) pairs, computing an embedding per situation in
embeddings mode; ids are positional from the current count. -/
def add_situations (self : FinancialSituationMemory)
    (situations_and_advice : List (List Char × List Char)) :
    FinancialSituationMemory :=
  { self with
    entries := self.entries ++ situations_and_advice.map (fun p =>
      { situation := p.1, recommendation := p.2,
        embedding := if self.use_embeddings then some (self.embedFn p.1) else none }) }

/- ==== tradingagents/agents/comprehensive/comprehensive_decision_agent.py ==== -/

/-- Research-debate state fields, as observed through debug.py. -/
structure InvestDebateState where
  bull_history : List Char
  bear_history : List Char
  judge_decision : List Char

/-- Risk-debate state fields, as observed through debug.py. -/
structure RiskDebateState where
  risky_history : List Char
  safe_history : List Char
  neutral_history : List Char
  judge_decision : List Char

/-- The shared run state (dict-shaped in the source; `Option` encodes a
possibly-absent key, whose access raises `KeyError`). -/
structure AgentState where
  company_of_interest : Option (List Char)
  trade_date : Option (List Char)
  market_report : Option (List Char)
  sentiment_report : Option (List Char)
  news_report : Option (List Char)
  fundamentals_report : Option (List Char)
  investment_debate_state : Option InvestDebateState
  risk_debate_state : Option RiskDebateState
  investment_plan : Option (List Char)
  trader_investment_plan : Option (List Char)
  final_trade_decision : Option (List Char)
  sender : Option (List Char)
  messages : List (List Char)

/-- The state delta returned by the comprehensive decision node
(exactly the five keys of the returned dict, lines 148-154). -/
structure DecisionDelta where
  investment_plan : List Char
  trader_investment_plan : List Char
  final_trade_decision : List Char
  messages : List (List Char)
  sender : List Char

/-- `curr_situation` (line 25): the four reports joined by blank lines. -/
def currSituation (market_research_report sentiment_report news_report
    fundamentals_report : List Char) : List Char :=
  market_research_report ++ "\n\n".data ++ sentiment_report ++ "\n\n".data
    ++ news_report ++ "\n\n".data ++ fundamentals_report

/-- One line of the past-memories text: `Memory {i}: {rec.recommendation}`
followed by a blank line. -/
def memoryLine (i : Nat) (rec : MemRecord) : List Char :=
  "Memory ".data ++ (toString i).data ++ ": ".data ++ rec.recommendation
    ++ "\n\n".data

/-- `past_memory_str` (lines 30-35): enumerate the matches from 1, or the
explicit marker when the list is empty. -/
def pastMemoryStr (past_memories : List MemRecord) : List Char :=
  if past_memories.isEmpty then ("No past memories found.".data)
  else (past_memories.enumFrom 1).foldl (fun acc p => acc ++ memoryLine p.1 p.2) []

/-- The prompt f-string of lines 37-120, with the seven interpolated values. -/
def buildPrompt (company_name trade_date market_research_report sentiment_report
    news_report fundamentals_report past_memory_str : List Char) : List Char :=
  "You are a comprehensive trading decision agent responsible for analyzing all available information and making a final trading decision for ".data
    ++ company_name
    ++ " on ".data
    ++ trade_date
    ++ ".\n\nYour task is to:\n1. Analyze the situation from both BULLISH and BEARISH perspectives\n2. Consider AGGRESSIVE, NEUTRAL, and CONSERVATIVE risk approaches\n3. Create a detailed investment plan\n4. Make a final trading decision (BUY, SELL, or HOLD)\n\nAVAILABLE INFORMATION:\n===================\n\nMarket Research Report:\n".data
    ++ market_research_report
    ++ "\n\nSocial Media Sentiment Report:\n".data
    ++ sentiment_report
    ++ "\n\nLatest News Report:\n".data
    ++ news_report
    ++ "\n\nCompany Fundamentals Report:\n".data
    ++ fundamentals_report
    ++ "\n\nPast Lessons and Reflections:\n".data
    ++ past_memory_str
    ++ "\n\nANALYSIS FRAMEWORK:\n==================\n\n1. BULLISH PERSPECTIVE ANALYSIS:\n   - Identify all positive factors from the reports\n   - Consider growth opportunities, positive sentiment, favorable market conditions\n   - Evaluate potential upside scenarios\n   - Address any bearish concerns with counter-arguments\n\n2. BEARISH PERSPECTIVE ANALYSIS:\n   - Identify all risk factors and negative indicators\n   - Consider market headwinds, negative sentiment, fundamental weaknesses\n   - Evaluate potential downside scenarios\n   - Challenge bullish assumptions with realistic concerns\n\n3. RISK ASSESSMENT:\n   - AGGRESSIVE APPROACH: Focus on high-reward opportunities, accept higher volatility\n   - CONSERVATIVE APPROACH: Prioritize capital preservation, minimize downside risk\n   - BALANCED APPROACH: Weigh risk-reward ratios, consider diversification\n\n4. INVESTMENT DECISION SYNTHESIS:\n   - Weigh all perspectives and risk considerations\n   - Learn from past mistakes reflected in memories\n   - Create a comprehensive investment plan\n   - Make a decisive recommendation with clear rationale\n\nDELIVERABLES:\n============\n\nProvide your analysis in the following structure:\n\n**BULLISH ANALYSIS:**\n[Your bullish perspective analysis]\n\n**BEARISH ANALYSIS:**\n[Your bearish perspective analysis]\n\n**RISK ASSESSMENT:**\n- Aggressive perspective: [analysis]\n- Conservative perspective: [analysis]\n- Balanced perspective: [analysis]\n\n**INVESTMENT PLAN:**\n[Detailed investment strategy and rationale]\n\n**FINAL DECISION:**\nBased on comprehensive analysis, my recommendation is: **BUY/SELL/HOLD**\n\n**RATIONALE:**\n[Clear explanation of why this decision was made, addressing key factors and lessons learned]\n\nRemember to:\n- Be decisive and avoid defaulting to HOLD without strong justification\n- Use real data instead of hallucinating\n- Learn from past mistakes mentioned in the memories\n- Consider all perspectives but make a clear final choice\n- Provide actionable insights for implementation\n".data

/-- The section marker searched for at line 131. -/
def INVESTMENT_PLAN_MARKER : List Char := "**INVESTMENT PLAN:**".data

/-- The section marker searched for at lines 132 and 140. -/
def FINAL_DECISION_MARKER : List Char := "**FINAL DECISION:**".data

/-- Lines 130-137: the trading-plan section, `content[start:end].strip()` when
both markers are found, the full content otherwise. -/
def extractTraderPlan (content : List Char) : List Char :=
  match pyFind INVESTMENT_PLAN_MARKER content, pyFind FINAL_DECISION_MARKER content with
  | some trader_plan_start, some trader_plan_end =>
      pyStrip (pySlice content trader_plan_start trader_plan_end)
  | _, _ => content

/-- Lines 139-145: the final-decision section, `content[start:].strip()` when
the marker is found, the full content otherwise. -/
def extractFinalDecision (content : List Char) : List Char :=
  match pyFind FINAL_DECISION_MARKER content with
  | some final_decision_start => pyStrip (content.drop final_decision_start)
  | none => content

/-- The dict returned at lines 148-154 for a given generated `content`. -/
def decisionDeltaOf (content : List Char) : DecisionDelta :=
  { investment_plan := content,
    trader_investment_plan := extractTraderPlan content,
    final_trade_decision := extractFinalDecision content,
    messages := [content],
    sender := "Comprehensive Decision Agent".data }

/-- `comprehensive_decision_node`: read the six state keys in source order
(raising `KeyError` on an absent key, as Python dict access does), look up
memories, build the prompt, invoke the text-generation client `llm`, parse
the sections, and return the five-field delta. -/
def comprehensive_decision_node
    (llm : List Char → List Char)
    (chroma : List MemEntry → ChromaQuery → Nat → QueryResults)
    (unified_memory : FinancialSituationMemory)
    (state : AgentState) : Except String DecisionDelta :=
  match state.company_of_interest with
  | none => Except.error ("KeyError: company_of_interest")
  | some company_name =>
  match state.trade_date with
  | none => Except.error ("KeyError: trade_date")
  | some trade_date =>
  match state.market_report with
  | none => Except.error ("KeyError: market_report")
  | some market_research_report =>
  match state.sentiment_report with
  | none => Except.error ("KeyError: sentiment_report")
  | some sentiment_report =>
  match state.news_report with
  | none => Except.error ("KeyError: news_report")
  | some news_report =>
  match state.fundamentals_report with
  | none => Except.error ("KeyError: fundamentals_report")
  | some fundamentals_report =>
      let curr_situation := currSituation market_research_report sentiment_report
        news_report fundamentals_report
      let past_memories := get_memories chroma unified_memory curr_situation 5
      let past_memory_str := pastMemoryStr past_memories
      let prompt := buildPrompt company_name trade_date market_research_report
        sentiment_report news_report fundamentals_report past_memory_str
      let content := llm prompt
      Except.ok
        { investment_plan := content,
          trader_investment_plan := extractTraderPlan content,
          final_trade_decision := extractFinalDecision content,
          messages := [content],
          sender := "Comprehensive Decision Agent".data }

/-- LangGraph-style merge of the node's returned delta into the run state:
the five returned keys are written (messages appended by the add reducer),
every other field is untouched. -/
def applyDelta (state : AgentState) (delta : DecisionDelta) : AgentState :=
  { state with
    investment_plan := some delta.investment_plan,
    trader_investment_plan := some delta.trader_investment_plan,
    final_trade_decision := some delta.final_trade_decision,
    sender := some delta.sender,
    messages := state.messages ++ delta.messages }

/- ===================== action-signal extraction ===================== -/

/-- The three action tokens. -/
def ACTION_TOKENS : List (List Char) := ["BUY".data, "SELL".data, "HOLD".data]

/-- The action token starting exactly at the head of `s`, if any. -/
def tokenAtHead (s : List Char) : Option (List Char) :=
  ACTION_TOKENS.find? (fun t => t.isPrefixOf s)

/-- The first action token occurring anywhere in `s`, scanning left to right. -/
def scanFirstToken : List Char → Option (List Char)
  | [] => none
  | c :: rest =>
      match tokenAtHead (c :: rest) with
      | some t => some t
      | none => scanFirstToken rest

/-- Modelled from the spec: the action-signal extraction step
(`process_signal`, invoked from debug.py but defined outside the given
sources) parses the signal with an exact, case-sensitive final-decision
marker match; when the marker is absent it falls back to scanning the
entire text for the first unambiguous action token; when no token is
found the signal is the explicit string `UNDETERMINED`. -/
def extract_action_signal (text : List Char) : List Char :=
  match pyFind FINAL_DECISION_MARKER text with
  | some i =>
      (scanFirstToken (text.drop (i + FINAL_DECISION_MARKER.length))).getD
        ("UNDETERMINED".data)
  | none => (scanFirstToken text).getD ("UNDETERMINED".data)

/- ===================== concrete witness inputs ===================== -/

/-- A chroma behaviour returning one match at distance 2 (an l2 or cosine
distance above 1 is possible for a chroma collection). -/
def cexChroma : List MemEntry → ChromaQuery → Nat → QueryResults :=
  fun _ _ _ =>
    { documents := ["past slump".data],
      recommendations := ["SELL".data],
      distances := [2] }

/-- A memory store constructed in embeddings mode. -/
def cexMemoryEmb : FinancialSituationMemory :=
  FinancialSituationMemory.init ("mem")
    { llm_provider := "openai", backend_url := "https://api.openai.com/v1" }
    (fun _ => [0]) []

/-- A memory store constructed in lexical-fallback mode. -/
def wMemoryLex : FinancialSituationMemory :=
  FinancialSituationMemory.init ("mem")
    { llm_provider := "google", backend_url := "https://example.invalid" }
    (fun _ => []) []

/-- A chroma behaviour returning one match at distance 0. -/
def wChroma : List MemEntry → ChromaQuery → Nat → QueryResults :=
  fun _ _ _ =>
    { documents := ["past rally".data],
      recommendations := ["BUY".data],
      distances := [0] }

/-- A chroma behaviour returning zero matches. -/
def emptyChroma : List MemEntry → ChromaQuery → Nat → QueryResults :=
  fun _ _ _ => { documents := [], recommendations := [], distances := [] }

/-- A run state whose `market_report` key is absent. -/
def cexState : AgentState :=
  { company_of_interest := some ("AAPL".data), trade_date := some ("2024-01-15".data),
    market_report := none, sentiment_report := some [], news_report := some [],
    fundamentals_report := some [], investment_debate_state := none,
    risk_debate_state := none, investment_plan := none,
    trader_investment_plan := none, final_trade_decision := none,
    sender := none, messages := [] }

/-- A run state with every report key present. -/
def wState : AgentState :=
  { company_of_interest := some ("TSLA".data), trade_date := some ("2024-01-15".data),
    market_report := some ("up".data), sentiment_report := some ("good".data),
    news_report := some ("calm".data), fundamentals_report := some ("solid".data),
    investment_debate_state := none, risk_debate_state := none,
    investment_plan := none, trader_investment_plan := none,
    final_trade_decision := none, sender := none, messages := ["hi".data] }

/-- A text-generation client returning a fixed short answer. -/
def wLLM : List Char → List Char := fun _ => "**FINAL DECISION:** **BUY**".data

/-- The record produced by `wChroma`/`wMemoryLex` at distance 0. -/
def wRecord : MemRecord :=
  { matched_situation := "past rally".data,
    recommendation := "BUY".data,
    similarity_score := similarity_score_of false 0 }

/-- The delta the node returns on `wState` with `wLLM`. -/
def wDelta : DecisionDelta :=
  decisionDeltaOf (wLLM (buildPrompt ("TSLA".data) ("2024-01-15".data) ("up".data)
    ("good".data) ("calm".data) ("solid".data)
    (pastMemoryStr (get_memories emptyChroma wMemoryLex
      (currSituation ("up".data) ("good".data) ("calm".data) ("solid".data)) 5))))

/-- A generated text containing both section markers. -/
def wContent : List Char :=
  "intro **INVESTMENT PLAN:** buy some **FINAL DECISION:** BUY".data

/-- A generated text containing the final-decision marker followed by a token. -/
def wSignalText : List Char :=
  "**FINAL DECISION:** my recommendation is: **BUY**".data

/- ===================== helper lemmas ===================== -/

theorem isPrefixOf_nil_eq (pat : List Char) :
    pat.isPrefixOf ([] : List Char) = pat.isEmpty := by
  cases pat <;> rfl

theorem occursAt_zero (pat s : List Char) :
    occursAt pat s 0 ↔ pat.isPrefixOf s = true := by
  simp [occursAt]

theorem occursAt_succ_cons (pat : List Char) (c : Char) (rest : List Char) (i : Nat) :
    occursAt pat (c :: rest) (i + 1) ↔ occursAt pat rest i := by
  simp [occursAt, List.drop_succ_cons]

theorem pyFind_eq_some_iff (pat : List Char) :
    ∀ (s : List Char) (i : Nat),
      pyFind pat s = some i ↔ firstOccurrenceAt pat s i := by
  intro s
  induction s with
  | nil =>
    intro i
    by_cases hp : pat.isEmpty
    · have hpat : pat = [] := by
        cases pat with
        | nil => rfl
        | cons a as => simp [List.isEmpty] at hp
      subst hpat
      constructor
      · intro h
        have hi : i = 0 := by
          simp [pyFind] at h
          omega
        subst hi
        exact ⟨by simp [occursAt], by omega⟩
      · rintro ⟨hocc, hmin⟩
        have hi : i = 0 := by
          by_contra hne
          exact hmin 0 (by omega) (by simp [occursAt])
        subst hi
        simp [pyFind]
    · simp only [pyFind, hp, if_false, Bool.false_eq_true]
      constructor
      · intro h
        exact absurd h (by simp)
      · rintro ⟨hocc, -⟩
        unfold occursAt at hocc
        rw [List.drop_nil, isPrefixOf_nil_eq] at hocc
        exact absurd hocc (by simp [hp])
  | cons c rest ih =>
    intro i
    by_cases hpre : pat.isPrefixOf (c :: rest) = true
    · have h0 : pyFind pat (c :: rest) = some 0 := by simp [pyFind, hpre]
      rw [h0]
      constructor
      · intro h
        have hi : i = 0 := by
          have := Option.some.inj h
          omega
        subst hi
        exact ⟨(occursAt_zero _ _).mpr hpre, by omega⟩
      · rintro ⟨hocc, hmin⟩
        rcases Nat.eq_zero_or_pos i with hi | hi
        · subst hi; rfl
        · exact ((hmin 0 hi) ((occursAt_zero _ _).mpr hpre)).elim
    · have h1 : pyFind pat (c :: rest) = (pyFind pat rest).map (· + 1) := by
        simp [pyFind, hpre]
      rw [h1]
      constructor
      · intro h
        rcases Option.map_eq_some'.mp h with ⟨i', hi', hplus⟩
        subst hplus
        have hfo := (ih i').mp hi'
        refine ⟨(occursAt_succ_cons _ _ _ _).mpr hfo.1, ?_⟩
        intro j hj
        cases j with
        | zero =>
          intro hcon
          exact hpre ((occursAt_zero _ _).mp hcon)
        | succ k =>
          intro hcon
          exact hfo.2 k (by omega) ((occursAt_succ_cons _ _ _ _).mp hcon)
      · rintro ⟨hocc, hmin⟩
        cases i with
        | zero => exact absurd ((occursAt_zero _ _).mp hocc) hpre
        | succ k =>
          have hfo : firstOccurrenceAt pat rest k := by
            refine ⟨(occursAt_succ_cons _ _ _ _).mp hocc, ?_⟩
            intro j hj hcon
            exact hmin (j + 1) (by omega) ((occursAt_succ_cons _ _ _ _).mpr hcon)
          rw [(ih k).mpr hfo]
          rfl

theorem pyFind_eq_none_iff (pat : List Char) :
    ∀ s : List Char, pyFind pat s = none ↔ ∀ j, ¬ occursAt pat s j := by
  intro s
  induction s with
  | nil =>
    by_cases hp : pat.isEmpty
    · have hpat : pat = [] := by
        cases pat with
        | nil => rfl
        | cons a as => simp [List.isEmpty] at hp
      subst hpat
      simp only [pyFind, if_pos rfl]
      constructor
      · intro h; exact absurd h (by simp)
      · intro h
        exact absurd (by simp [occursAt] : occursAt [] [] 0) (h 0)
    · simp only [pyFind, hp, if_false, Bool.false_eq_true]
      constructor
      · intro _ j
        unfold occursAt
        rw [List.drop_nil, isPrefixOf_nil_eq]
        simp [hp]
      · intro _; trivial
  | cons c rest ih =>
    by_cases hpre : pat.isPrefixOf (c :: rest) = true
    · have h0 : pyFind pat (c :: rest) = some 0 := by simp [pyFind, hpre]
      rw [h0]
      constructor
      · intro h; exact absurd h (by simp)
      · intro h
        exact absurd ((occursAt_zero _ _).mpr hpre) (h 0)
    · have h1 : pyFind pat (c :: rest) = (pyFind pat rest).map (· + 1) := by
        simp [pyFind, hpre]
      rw [h1, Option.map_eq_none', ih]
      constructor
      · intro h j
        cases j with
        | zero =>
          intro hcon
          exact hpre ((occursAt_zero _ _).mp hcon)
        | succ k =>
          intro hcon
          exact h k ((occursAt_succ_cons _ _ _ _).mp hcon)
      · intro h j hcon
        exact h (j + 1) ((occursAt_succ_cons _ _ _ _).mpr hcon)

theorem scanFirstToken_eq_none_iff :
    ∀ s : List Char, scanFirstToken s = none ↔ ∀ j, tokenAtHead (s.drop j) = none := by
  intro s
  induction s with
  | nil =>
    simp only [scanFirstToken, List.drop_nil]
    constructor
    · intro _ _; rfl
    · intro _; trivial
  | cons c rest ih =>
    constructor
    · intro h j
      cases htk : tokenAtHead (c :: rest) with
      | some t => simp [scanFirstToken, htk] at h
      | none =>
        have h' : scanFirstToken rest = none := by
          simpa [scanFirstToken, htk] using h
        cases j with
        | zero => simpa using htk
        | succ k => simpa [List.drop_succ_cons] using (ih.mp h') k
    · intro h
      have h0 : tokenAtHead (c :: rest) = none := by simpa using h 0
      have hr : ∀ j, tokenAtHead (rest.drop j) = none := fun j => by
        simpa [List.drop_succ_cons] using h (j + 1)
      simp [scanFirstToken, h0, ih.mpr hr]

/- ===================== claim theorems ===================== -/

/-- C9: `TradingService.validate_symbol(s)` returns True iff `s` is non-empty
and, after uppercasing and stripping surrounding whitespace, the result has
length between 1 and 10 inclusive and every character is a letter, `.` or
`-`; and validation is case-insensitive (inputs equal up to case validate
identically). -/
theorem C9_validate_symbol_spec :
    (∀ s : List Char, validate_symbol s = true ↔
        (s ≠ [] ∧ 1 ≤ (pyStrip (s.map Char.toUpper)).length
          ∧ (pyStrip (s.map Char.toUpper)).length ≤ 10
          ∧ ∀ c ∈ pyStrip (s.map Char.toUpper),
              c.isAlpha = true ∨ c = '.' ∨ c = '-')) ∧
    (∀ s t : List Char, s.map Char.toUpper = t.map Char.toUpper →
        validate_symbol s = validate_symbol t) := by
  constructor
  · intro s
    unfold validate_symbol
    split_ifs with h1 h2 h3
    · simp [h1]
    · simp only [false_iff]
      rintro ⟨-, ha, hb, -⟩
      omega
    · constructor
      · intro _
        exact ⟨h1, by omega, by omega, h3⟩
      · intro _
        rfl
    · simp only [false_iff]
      rintro ⟨-, -, -, hall⟩
      exact h3 hall
  · intro s t hmap
    have hne : (s = []) ↔ (t = []) := by
      constructor
      · intro h
        subst h
        exact (List.map_eq_nil_iff.mp hmap.symm)
      · intro h
        subst h
        exact (List.map_eq_nil_iff.mp hmap)
    by_cases hs : s = []
    · have ht := hne.mp hs
      simp [validate_symbol, hs, ht]
    · have ht : ¬ t = [] := fun h => hs (hne.mpr h)
      simp only [validate_symbol, hs, ht, hmap, if_false]

/-- C9 witness: two spellings of the same symbol validate identically. -/
theorem C9_witness : validate_symbol ("aapl".data) = validate_symbol ("AAPL".data) :=
  C9_validate_symbol_spec.2 ("aapl".data) ("AAPL".data) (by decide)

/-- C10: whenever header plus footer leave nonnegative truncation room
(their combined length plus 50 at most 4000), the formatted Telegram
message is at most 4000 characters long. -/
theorem C10_telegram_length_cap :
    ∀ decision symbol trade_date : List Char,
      (ts_header symbol trade_date).length + ts_footer.length + 50 ≤ 4000 →
      (format_decision_for_telegram decision symbol trade_date).length ≤ 4000 := by
  intro d sym dt h
  have hsec : ∀ x : List Char, (ts_decision_section x).length = x.length + 24 := by
    intro x
    have h1 : ("💡 *Trading Decision:*\n".data).length = 22 := by decide
    have h2 : ("\n\n".data).length = 2 := by decide
    simp [ts_decision_section, List.length_append, h1, h2]
  unfold format_decision_for_telegram
  split
  · rename_i hgt
    have hm : (0 : Int) ≤ (4000 : Int) - ((ts_header sym dt).length : Int)
        - (ts_footer.length : Int) - 50 := by omega
    have hps : pyPrefixSlice d ((4000 : Int) - ((ts_header sym dt).length : Int)
        - (ts_footer.length : Int) - 50)
        = d.take ((4000 : Int) - ((ts_header sym dt).length : Int)
            - (ts_footer.length : Int) - 50).toNat := by
      unfold pyPrefixSlice
      rw [if_pos hm]
    rw [hps]
    have h3 : ("...".data).length = 3 := by decide
    simp only [List.length_append, hsec, List.length_take, h3]
    omega
  · rename_i hle
    exact Nat.le_of_not_lt hle

/-- C10 witness: a short concrete message fits the limit. -/
theorem C10_witness :
    (format_decision_for_telegram ("BUY".data) ("AAPL".data) ("2024-01-15".data)).length
      ≤ 4000 :=
  C10_telegram_length_cap ("BUY".data) ("AAPL".data) ("2024-01-15".data) (by decide)

/-- C4 counterexample: in vector-similarity mode a reported distance of 2
produces a similarity score of -1, outside [0,1], refuting the claim that
every returned record's score lies in [0,1] in both modes. -/
theorem C4_counterexample :
    ¬ (∀ r ∈ get_memories cexChroma cexMemoryEmb ("q".data) 1,
        0 ≤ r.similarity_score ∧ r.similarity_score ≤ 1) := by
  intro hall
  have hlist : get_memories cexChroma cexMemoryEmb ("q".data) 1
      = [{ matched_situation := "past slump".data,
           recommendation := "SELL".data,
           similarity_score := (1 : ℚ) - 2 }] := rfl
  have hmem : ({ matched_situation := "past slump".data,
                 recommendation := "SELL".data,
                 similarity_score := (1 : ℚ) - 2 } : MemRecord)
      ∈ get_memories cexChroma cexMemoryEmb ("q".data) 1 := by
    rw [hlist]
    exact List.mem_singleton_self _
  have h2 := (hall _ hmem).1
  norm_num at h2

/-- C4 amended: given nonnegative reported distances, every returned record
has score at most 1, and in lexical-fallback mode the score is also
nonnegative (so lies in [0,1]); in vector-similarity mode the score is
1 - distance and may drop below 0 when the distance exceeds 1. -/
theorem C4_amended_scores :
    ∀ (chroma : List MemEntry → ChromaQuery → Nat → QueryResults)
      (self : FinancialSituationMemory) (sit : List Char) (n : Nat),
      (∀ d ∈ (chroma self.entries (memoryQueryRequest self sit) n).distances, 0 ≤ d) →
      ∀ r ∈ get_memories chroma self sit n,
        r.similarity_score ≤ 1
          ∧ (self.use_embeddings = false → 0 ≤ r.similarity_score) := by
  intro chroma self sit n hd r hr
  unfold get_memories at hr
  simp only [List.mem_map] at hr
  obtain ⟨⟨doc, rec, dist⟩, hp, rfl⟩ := hr
  have hdist : dist ∈ (chroma self.entries (memoryQueryRequest self sit) n).distances :=
    (List.of_mem_zip (List.of_mem_zip hp).2).2
  have h0 : (0 : ℚ) ≤ dist := hd dist hdist
  constructor
  · show similarity_score_of self.use_embeddings dist ≤ 1
    unfold similarity_score_of
    split
    · linarith
    · exact max_le (by norm_num) (by linarith)
  · intro hue
    show (0 : ℚ) ≤ similarity_score_of self.use_embeddings dist
    unfold similarity_score_of
    rw [hue]
    simp only [Bool.false_eq_true, if_false]
    exact le_max_left 0 _

/-- C4 witness: the lexical-mode record at distance 0 has a score in [0,1]. -/
theorem C4_witness :
    wRecord.similarity_score ≤ 1
      ∧ (wMemoryLex.use_embeddings = false → 0 ≤ wRecord.similarity_score) :=
  C4_amended_scores wChroma wMemoryLex ("sit".data) 1
    (by
      intro d hd
      simp [wChroma] at hd
      simp [hd])
    wRecord
    (by
      have hlist : get_memories wChroma wMemoryLex ("sit".data) 1 = [wRecord] := rfl
      rw [hlist]
      exact List.mem_singleton_self _)

/-- C5: querying the memory twice with identical arguments, with no
intervening `add_situations`, yields identical ordered result lists; the
query itself leaves the store unchanged. -/
theorem C5_idempotent_query :
    ∀ (chroma : List MemEntry → ChromaQuery → Nat → QueryResults)
      (self : FinancialSituationMemory) (sit : List Char) (n : Nat),
      (get_memories_st chroma self sit n).2 = self ∧
      (get_memories_st chroma (get_memories_st chroma self sit n).2 sit n).1
        = (get_memories_st chroma self sit n).1 :=
  fun _ _ _ _ => ⟨rfl, rfl⟩

/-- C6: the store's mode is fixed at construction as
`llm_provider == "openai"`, declared through the `use_embeddings` flag;
in embeddings mode every query is issued by embedding vector, otherwise
by query text; and `add_situations` never changes the mode. -/
theorem C6_two_modes :
    (∀ (name : String) (config : MemoryConfig) (embedFn : List Char → List ℚ)
        (entries : List MemEntry),
        (FinancialSituationMemory.init name config embedFn entries).use_embeddings
          = (config.llm_provider == "openai")) ∧
    (∀ (self : FinancialSituationMemory) (sit : List Char),
        self.use_embeddings = true →
        memoryQueryRequest self sit = ChromaQuery.byEmbeddings (self.embedFn sit)) ∧
    (∀ (self : FinancialSituationMemory) (sit : List Char),
        self.use_embeddings = false →
        memoryQueryRequest self sit = ChromaQuery.byTexts sit) ∧
    (∀ (self : FinancialSituationMemory) (pairs : List (List Char × List Char)),
        (add_situations self pairs).use_embeddings = self.use_embeddings) := by
  refine ⟨?_, ?_, ?_, ?_⟩
  · intro name config embedFn entries
    unfold FinancialSituationMemory.init
    split_ifs with h1 h2 <;> simp_all
  · intro self sit hue
    simp [memoryQueryRequest, FinancialSituationMemory.get_embedding, hue]
  · intro self sit hue
    simp [memoryQueryRequest, hue]
  · intro self pairs
    rfl

/-- C6 witness: the two constructed stores issue the two query shapes. -/
theorem C6_witness :
    memoryQueryRequest cexMemoryEmb ("q".data)
        = ChromaQuery.byEmbeddings (cexMemoryEmb.embedFn ("q".data))
      ∧ memoryQueryRequest wMemoryLex ("q".data) = ChromaQuery.byTexts ("q".data) :=
  ⟨C6_two_modes.2.1 cexMemoryEmb ("q".data) rfl,
   C6_two_modes.2.2.1 wMemoryLex ("q".data) rfl⟩

/-- C2 counterexample: on a run state whose `market_report` key is absent, the
synthesis/decision node raises `KeyError` instead of completing with a
"not available" marker, refuting the claim that it never fails on a
missing report field. -/
theorem C2_counterexample :
    comprehensive_decision_node wLLM emptyChroma wMemoryLex cexState
      = Except.error ("KeyError: market_report") := rfl

/-- C2 amended: the node reads the six state fields directly, in source order;
when all are present — even as empty strings — it runs to completion and
embeds the field values verbatim in the assembled context, with no
"not available" substitution; when any field is absent it fails with the
`KeyError` of the first absent field in access order (company, date,
market, sentiment, news, fundamentals) rather than substituting a marker. -/
theorem C2_amended_direct_access :
    (∀ (llm : List Char → List Char)
        (chroma : List MemEntry → ChromaQuery → Nat → QueryResults)
        (mem : FinancialSituationMemory) (state : AgentState)
        (c d m s n f : List Char),
        state.company_of_interest = some c → state.trade_date = some d →
        state.market_report = some m → state.sentiment_report = some s →
        state.news_report = some n → state.fundamentals_report = some f →
        comprehensive_decision_node llm chroma mem state =
          Except.ok (decisionDeltaOf (llm (buildPrompt c d m s n f
            (pastMemoryStr (get_memories chroma mem (currSituation m s n f) 5)))))) ∧
    (∀ (llm : List Char → List Char)
        (chroma : List MemEntry → ChromaQuery → Nat → QueryResults)
        (mem : FinancialSituationMemory) (state : AgentState),
        state.company_of_interest = none →
        comprehensive_decision_node llm chroma mem state
          = Except.error ("KeyError: company_of_interest")) ∧
    (∀ (llm : List Char → List Char)
        (chroma : List MemEntry → ChromaQuery → Nat → QueryResults)
        (mem : FinancialSituationMemory) (state : AgentState)
        (c : List Char),
        state.company_of_interest = some c → state.trade_date = none →
        comprehensive_decision_node llm chroma mem state
          = Except.error ("KeyError: trade_date")) ∧
    (∀ (llm : List Char → List Char)
        (chroma : List MemEntry → ChromaQuery → Nat → QueryResults)
        (mem : FinancialSituationMemory) (state : AgentState)
        (c d : List Char),
        state.company_of_interest = some c → state.trade_date = some d →
        state.market_report = none →
        comprehensive_decision_node llm chroma mem state
          = Except.error ("KeyError: market_report")) ∧
    (∀ (llm : List Char → List Char)
        (chroma : List MemEntry → ChromaQuery → Nat → QueryResults)
        (mem : FinancialSituationMemory) (state : AgentState)
        (c d m : List Char),
        state.company_of_interest = some c → state.trade_date = some d →
        state.market_report = some m → state.sentiment_report = none →
        comprehensive_decision_node llm chroma mem state
          = Except.error ("KeyError: sentiment_report")) ∧
    (∀ (llm : List Char → List Char)
        (chroma : List MemEntry → ChromaQuery → Nat → QueryResults)
        (mem : FinancialSituationMemory) (state : AgentState)
        (c d m s : List Char),
        state.company_of_interest = some c → state.trade_date = some d →
        state.market_report = some m → state.sentiment_report = some s →
        state.news_report = none →
        comprehensive_decision_node llm chroma mem state
          = Except.error ("KeyError: news_report")) ∧
    (∀ (llm : List Char → List Char)
        (chroma : List MemEntry → ChromaQuery → Nat → QueryResults)
        (mem : FinancialSituationMemory) (state : AgentState)
        (c d m s n : List Char),
        state.company_of_interest = some c → state.trade_date = some d →
        state.market_report = some m → state.sentiment_report = some s →
        state.news_report = some n → state.fundamentals_report = none →
        comprehensive_decision_node llm chroma mem state
          = Except.error ("KeyError: fundamentals_report")) := by
  refine ⟨?_, ?_, ?_, ?_, ?_, ?_, ?_⟩
  · intro llm chroma mem state c d m s n f h1 h2 h3 h4 h5 h6
    unfold comprehensive_decision_node
    rw [h1, h2, h3, h4, h5, h6]
    rfl
  · intro llm chroma mem state h1
    unfold comprehensive_decision_node
    rw [h1]
  · intro llm chroma mem state c h1 h2
    unfold comprehensive_decision_node
    rw [h1, h2]
  · intro llm chroma mem state c d h1 h2 h3
    unfold comprehensive_decision_node
    rw [h1, h2, h3]
  · intro llm chroma mem state c d m h1 h2 h3 h4
    unfold comprehensive_decision_node
    rw [h1, h2, h3, h4]
  · intro llm chroma mem state c d m s h1 h2 h3 h4 h5
    unfold comprehensive_decision_node
    rw [h1, h2, h3, h4, h5]
  · intro llm chroma mem state c d m s n h1 h2 h3 h4 h5 h6
    unfold comprehensive_decision_node
    rw [h1, h2, h3, h4, h5, h6]

/-- C2 witness: the node completes on a state with every report present, and
errors on the state missing `market_report`. -/
theorem C2_witness :
    comprehensive_decision_node wLLM emptyChroma wMemoryLex wState
        = Except.ok (decisionDeltaOf (wLLM (buildPrompt ("TSLA".data) ("2024-01-15".data)
            ("up".data) ("good".data) ("calm".data) ("solid".data)
            (pastMemoryStr (get_memories emptyChroma wMemoryLex
              (currSituation ("up".data) ("good".data) ("calm".data) ("solid".data)) 5)))))
      ∧ comprehensive_decision_node wLLM emptyChroma wMemoryLex cexState
          = Except.error ("KeyError: market_report") :=
  ⟨C2_amended_direct_access.1 wLLM emptyChroma wMemoryLex wState
      ("TSLA".data) ("2024-01-15".data) ("up".data) ("good".data) ("calm".data)
      ("solid".data) rfl rfl rfl rfl rfl rfl,
   C2_amended_direct_access.2.2.2.1 wLLM emptyChroma wMemoryLex cexState
      ("AAPL".data) ("2024-01-15".data) rfl rfl rfl⟩

/-- C3: a memory query with zero matches yields the empty record list, the
past-memories part of the assembled context then equals the explicit
marker "No past memories found.", and the node still completes with that
marker in place of retrieved memories. -/
theorem C3_no_matches_marker :
    (∀ (chroma : List MemEntry → ChromaQuery → Nat → QueryResults)
        (self : FinancialSituationMemory) (sit : List Char) (n : Nat),
        (chroma self.entries (memoryQueryRequest self sit) n).documents = [] →
        get_memories chroma self sit n = []) ∧
    (pastMemoryStr [] = "No past memories found.".data) ∧
    (∀ (llm : List Char → List Char)
        (chroma : List MemEntry → ChromaQuery → Nat → QueryResults)
        (mem : FinancialSituationMemory) (state : AgentState)
        (c d m s n f : List Char),
        state.company_of_interest = some c → state.trade_date = some d →
        state.market_report = some m → state.sentiment_report = some s →
        state.news_report = some n → state.fundamentals_report = some f →
        get_memories chroma mem (currSituation m s n f) 5 = [] →
        comprehensive_decision_node llm chroma mem state =
          Except.ok (decisionDeltaOf (llm (buildPrompt c d m s n f
            ("No past memories found.".data))))) := by
  refine ⟨?_, rfl, ?_⟩
  · intro chroma self sit n hdoc
    simp [get_memories, hdoc]
  · intro llm chroma mem state c d m s n f h1 h2 h3 h4 h5 h6 hmem
    unfold comprehensive_decision_node
    rw [h1, h2, h3, h4, h5, h6]
    show Except.ok (decisionDeltaOf (llm (buildPrompt c d m s n f
      (pastMemoryStr (get_memories chroma mem (currSituation m s n f) 5))))) = _
    rw [hmem]
    rfl

/-- C3 witness: with a chroma behaviour returning zero matches the node
completes, the context carrying the explicit marker. -/
theorem C3_witness :
    comprehensive_decision_node wLLM emptyChroma wMemoryLex wState
      = Except.ok (decisionDeltaOf (wLLM (buildPrompt ("TSLA".data) ("2024-01-15".data)
          ("up".data) ("good".data) ("calm".data) ("solid".data)
          ("No past memories found.".data)))) :=
  C3_no_matches_marker.2.2 wLLM emptyChroma wMemoryLex wState
    ("TSLA".data) ("2024-01-15".data) ("up".data) ("good".data) ("calm".data)
    ("solid".data) rfl rfl rfl rfl rfl rfl rfl

/-- C7: whenever the node returns a delta, merging that delta writes only the
node's own five fields (the investment plan, trader plan, final decision,
appended messages and sender tag); the four report fields, both debate
states, the subject and the date are unchanged. -/
theorem C7_frame :
    ∀ (llm : List Char → List Char)
      (chroma : List MemEntry → ChromaQuery → Nat → QueryResults)
      (mem : FinancialSituationMemory) (state : AgentState) (delta : DecisionDelta),
      comprehensive_decision_node llm chroma mem state = Except.ok delta →
      (applyDelta state delta).company_of_interest = state.company_of_interest ∧
      (applyDelta state delta).trade_date = state.trade_date ∧
      (applyDelta state delta).market_report = state.market_report ∧
      (applyDelta state delta).sentiment_report = state.sentiment_report ∧
      (applyDelta state delta).news_report = state.news_report ∧
      (applyDelta state delta).fundamentals_report = state.fundamentals_report ∧
      (applyDelta state delta).investment_debate_state = state.investment_debate_state ∧
      (applyDelta state delta).risk_debate_state = state.risk_debate_state ∧
      (applyDelta state delta).investment_plan = some delta.investment_plan ∧
      (applyDelta state delta).trader_investment_plan = some delta.trader_investment_plan ∧
      (applyDelta state delta).final_trade_decision = some delta.final_trade_decision ∧
      (applyDelta state delta).sender = some delta.sender ∧
      (applyDelta state delta).messages = state.messages ++ delta.messages := by
  intro llm chroma mem state delta _
  exact ⟨rfl, rfl, rfl, rfl, rfl, rfl, rfl, rfl, rfl, rfl, rfl, rfl, rfl⟩

/-- C7 witness: the frame conditions at a concrete state and delta. -/
theorem C7_witness :
    (applyDelta wState wDelta).market_report = wState.market_report ∧
    (applyDelta wState wDelta).sentiment_report = wState.sentiment_report ∧
    (applyDelta wState wDelta).news_report = wState.news_report ∧
    (applyDelta wState wDelta).fundamentals_report = wState.fundamentals_report ∧
    (applyDelta wState wDelta).investment_debate_state = wState.investment_debate_state ∧
    (applyDelta wState wDelta).risk_debate_state = wState.risk_debate_state ∧
    (applyDelta wState wDelta).messages = wState.messages ++ wDelta.messages := by
  have h := C7_frame wLLM emptyChroma wMemoryLex wState wDelta rfl
  exact ⟨h.2.2.1, h.2.2.2.1, h.2.2.2.2.1, h.2.2.2.2.2.1, h.2.2.2.2.2.2.1,
    h.2.2.2.2.2.2.2.1, h.2.2.2.2.2.2.2.2.2.2.2.2⟩

/-- C8: when both section markers occur (at first occurrences i and j), the
trader investment plan is the stripped slice `content[i:j]` and the final
decision is the stripped suffix `content[j:]`; when a required marker is
absent the full generated text is used instead. -/
theorem C8_section_extraction :
    (∀ (content : List Char) (i j : Nat),
        firstOccurrenceAt INVESTMENT_PLAN_MARKER content i →
        firstOccurrenceAt FINAL_DECISION_MARKER content j →
        extractTraderPlan content = pyStrip (pySlice content i j) ∧
        extractFinalDecision content = pyStrip (content.drop j)) ∧
    (∀ content : List Char, (∀ k, ¬ occursAt INVESTMENT_PLAN_MARKER content k) →
        extractTraderPlan content = content) ∧
    (∀ content : List Char, (∀ k, ¬ occursAt FINAL_DECISION_MARKER content k) →
        extractTraderPlan content = content ∧ extractFinalDecision content = content) := by
  refine ⟨?_, ?_, ?_⟩
  · intro content i j hi hj
    have h1 : pyFind INVESTMENT_PLAN_MARKER content = some i :=
      (pyFind_eq_some_iff _ _ _).mpr hi
    have h2 : pyFind FINAL_DECISION_MARKER content = some j :=
      (pyFind_eq_some_iff _ _ _).mpr hj
    constructor
    · unfold extractTraderPlan
      rw [h1, h2]
    · unfold extractFinalDecision
      rw [h2]
  · intro content h
    have h1 : pyFind INVESTMENT_PLAN_MARKER content = none :=
      (pyFind_eq_none_iff _ _).mpr h
    unfold extractTraderPlan
    rw [h1]
  · intro content h
    have h2 : pyFind FINAL_DECISION_MARKER content = none :=
      (pyFind_eq_none_iff _ _).mpr h
    constructor
    · unfold extractTraderPlan
      cases hcase : pyFind INVESTMENT_PLAN_MARKER content with
      | none => rw [h2]
      | some v => rw [h2]
    · unfold extractFinalDecision
      rw [h2]

/-- C8 witness: extraction on a concrete text carrying both markers. -/
theorem C8_witness :
    extractTraderPlan wContent = pyStrip (pySlice wContent 6 36) ∧
    extractFinalDecision wContent = pyStrip (wContent.drop 36) :=
  C8_section_extraction.1 wContent 6 36 (by decide) (by decide)

/-- C1: for the spec-modelled action-signal extraction, a text whose
final-decision marker (first occurrence at i) is followed by an action
token yields that token; with no marker, extraction falls back to
scanning the entire text for the first token; with no marker and no
token, the signal is exactly UNDETERMINED — never a silent HOLD. -/
theorem C1_signal_extraction :
    (∀ (text : List Char) (i : Nat) (tok : List Char),
        firstOccurrenceAt FINAL_DECISION_MARKER text i →
        scanFirstToken (text.drop (i + FINAL_DECISION_MARKER.length)) = some tok →
        extract_action_signal text = tok) ∧
    (∀ text : List Char, (∀ j, ¬ occursAt FINAL_DECISION_MARKER text j) →
        extract_action_signal text = (scanFirstToken text).getD ("UNDETERMINED".data)) ∧
    (∀ text : List Char, (∀ j, ¬ occursAt FINAL_DECISION_MARKER text j) →
        (∀ j, tokenAtHead (text.drop j) = none) →
        extract_action_signal text = "UNDETERMINED".data ∧
          extract_action_signal text ≠ "HOLD".data) := by
  refine ⟨?_, ?_, ?_⟩
  · intro text i tok hi htok
    have h1 : pyFind FINAL_DECISION_MARKER text = some i :=
      (pyFind_eq_some_iff _ _ _).mpr hi
    unfold extract_action_signal
    rw [h1]
    show (scanFirstToken (text.drop (i + FINAL_DECISION_MARKER.length))).getD
      ("UNDETERMINED".data) = tok
    rw [htok]
    rfl
  · intro text h
    have h1 : pyFind FINAL_DECISION_MARKER text = none :=
      (pyFind_eq_none_iff _ _).mpr h
    unfold extract_action_signal
    rw [h1]
  · intro text h ht
    have h1 : pyFind FINAL_DECISION_MARKER text = none :=
      (pyFind_eq_none_iff _ _).mpr h
    have h2 : scanFirstToken text = none :=
      (scanFirstToken_eq_none_iff _).mpr ht
    unfold extract_action_signal
    rw [h1, h2]
    refine ⟨rfl, ?_⟩
    show ("UNDETERMINED".data : List Char) ≠ "HOLD".data
    decide

/-- C1 witness: a marker followed by BUY extracts BUY; a text with neither
marker nor token extracts UNDETERMINED. -/
theorem C1_witness :
    extract_action_signal wSignalText = "BUY".data ∧
    extract_action_signal ("no tokens here".data) = "UNDETERMINED".data :=
  ⟨C1_signal_extraction.1 wSignalText 0 ("BUY".data) (by decide) (by decide),
   (C1_signal_extraction.2.2 ("no tokens here".data)
      ((pyFind_eq_none_iff _ _).mp (by decide))
      ((scanFirstToken_eq_none_iff _).mp (by decide))).1⟩
